import Mathlib

/-!
Verification of `macos-notify-mcp` against its natural-language specification.

Shallow embedding of the repository's core logic:
* `src/notifier.ts` (`TmuxNotifier`): terminal-emulator resolution, tmux session
  directory, notification dispatch;
* `src/index.ts` (`send_notification` tool handler) and `src/cli.ts` (`main`):
  the two front ends;
* `MacOSNotifyMCP/main.swift` (`focusToTmux`): the click handler's
  `switch-client` target-string construction.

External effects (`child_process.spawn` via `runCommand`, `fs.existsSync`,
`process.env`, `process.pid`) are modelled by an explicit read-only `World`
oracle; a command invocation either yields captured stdout or a `CmdErr`
(the code's `CommandError`).  JavaScript-specific semantics (string
truthiness, `parseInt` / `Number` returning `NaN`, `String.split` with a
whitespace regex, `includes`) are modelled by the `js*` helpers below.
-/

namespace MacosNotifyMcp

/-- `TerminalType` from `src/notifier.ts`: the closed set of terminal
identities the resolver can produce. -/
inductive TerminalType where
  | VSCode
  | Cursor
  | iTerm2
  | Terminal
  | alacritty
  | Unknown
  deriving DecidableEq, Repr

/-- Printed form of a `TerminalType`, as passed in the `--terminal` argument
(the TypeScript union members are string literals). -/
def terminalName : TerminalType → String
  | .VSCode => "VSCode"
  | .Cursor => "Cursor"
  | .iTerm2 => "iTerm2"
  | .Terminal => "Terminal"
  | .alacritty => "alacritty"
  | .Unknown => "Unknown"

/-- Decidable equality for `Except`, so that closed runs of the model can be
settled by `decide`. -/
instance exceptDecEq {ε α : Type} [DecidableEq ε] [DecidableEq α] :
    DecidableEq (Except ε α) := fun a b =>
  match a, b with
  | .error e, .error f =>
    if h : e = f then .isTrue (by rw [h]) else .isFalse (fun hh => h (Except.error.inj hh))
  | .error _, .ok _ => .isFalse Except.noConfusion
  | .ok _, .error _ => .isFalse Except.noConfusion
  | .ok x, .ok y =>
    if h : x = y then .isTrue (by rw [h]) else .isFalse (fun hh => h (Except.ok.inj hh))

/-- `CommandError` from `src/notifier.ts` (`runCommand`'s rejection value). -/
structure CmdErr where
  message : String
  code : Option Int
  stderr : String
  stdout : String
  deriving DecidableEq, Repr

/-- The environment variables read by `TmuxNotifier`.  A field is `none` when
the variable is unset; JavaScript truthiness additionally treats the empty
string as unset (`jsTruthy`). -/
structure Env where
  CURSOR_TRACE_ID : Option String
  VSCODE_IPC_HOOK_CLI : Option String
  VSCODE_REMOTE : Option String
  VSCODE_PID : Option String
  ALACRITTY_WINDOW_ID : Option String
  ALACRITTY_SOCKET : Option String
  TERM_PROGRAM : Option String
  TMUX : Option String
  TMUX_PANE : Option String

/-- The environment snapshot with every variable unset. -/
def Env.empty : Env :=
  ⟨none, none, none, none, none, none, none, none, none⟩

/-- Read-only snapshot of the process's outside world: environment variables,
own pid, the outcome of every external command (`runCommand` = `run`), the
filesystem probe used by the constructor (`fs.existsSync` = `pathExists`),
the two base directories the constructor probes from, and the notifier's
default title (`initializeDefaultTitle` runs un-awaited in the constructor;
its best-effort outcome is a snapshot field since no claim depends on it). -/
structure World where
  env : Env
  pid : Int
  run : String → List String → Except CmdErr String
  pathExists : String → Bool
  metaDir : String
  cwd : String
  defaultTitle : String

/-- JavaScript truthiness of `process.env.X : string | undefined`:
truthy exactly when the variable is set to a non-empty string. -/
def jsTruthy : Option String → Bool
  | none => false
  | some s => s ≠ ""

/-- Whether `sub` occurs as a contiguous run inside `cs`
(structural, so that closed instances evaluate inside the kernel). -/
def listContainsSub (sub : List Char) : List Char → Bool
  | [] => sub.isEmpty
  | c :: rest => sub.isPrefixOf (c :: rest) || listContainsSub sub rest

/-- JavaScript `String.prototype.includes`: substring containment. -/
def jsIncludes (s sub : String) : Bool :=
  listContainsSub sub.data s.data

/-- Strip leading and trailing whitespace from a character list. -/
def trimC (cs : List Char) : List Char :=
  ((cs.dropWhile Char.isWhitespace).reverse.dropWhile Char.isWhitespace).reverse

/-- JavaScript `String.prototype.trim`. -/
def jsTrim (s : String) : String :=
  ⟨trimC s.data⟩

/-- Split a character list on a separator character (JavaScript
`s.split(sep)` for a one-character separator: the empty string yields one
empty piece, and separators at the ends yield empty pieces). -/
def splitAtChar (sep : Char) : List Char → List (List Char)
  | [] => [[]]
  | c :: rest =>
    if c = sep then [] :: splitAtChar sep rest
    else
      match splitAtChar sep rest with
      | [] => [[c]]
      | piece :: pieces => (c :: piece) :: pieces

/-- `String` version of `splitAtChar`. -/
def jsSplitChar (sep : Char) (s : String) : List String :=
  (splitAtChar sep s.data).map fun piece => ⟨piece⟩

/-- Digits-only string to `Nat`; `none` if empty or any non-digit appears. -/
def digitsToNat : List Char → Option Nat
  | [] => none
  | l =>
    l.foldl
      (fun acc c =>
        acc.bind fun n => if c.isDigit then some (n * 10 + (c.toNat - 48)) else none)
      (some 0)

/-- JavaScript `Number.parseInt`: skip surrounding whitespace, optional sign,
then the maximal run of leading digits; `none` models `NaN` (no digits). -/
def parseJsInt (s : String) : Option Int :=
  match trimC s.data with
  | '-' :: rest => (digitsToNat (rest.takeWhile Char.isDigit)).map fun n => -(n : Int)
  | '+' :: rest => (digitsToNat (rest.takeWhile Char.isDigit)).map fun n => (n : Int)
  | l => (digitsToNat (l.takeWhile Char.isDigit)).map fun n => (n : Int)

/-- JavaScript `Number(...)` of an (integer-valued) string: the empty or
all-whitespace string is `0`; otherwise an optional sign followed by digits
only; `none` models `NaN`. -/
def jsNumber (s : String) : Option Int :=
  match trimC s.data with
  | [] => some 0
  | '-' :: rest => (digitsToNat rest).map fun n => -(n : Int)
  | '+' :: rest => (digitsToNat rest).map fun n => (n : Int)
  | l => (digitsToNat l).map fun n => (n : Int)

/-- Whitespace-field splitting, dropping empty pieces; the accumulator holds
the (reversed) current token. -/
def wsTokensAux : List Char → List Char → List (List Char)
  | acc, [] => if acc.isEmpty then [] else [acc.reverse]
  | acc, c :: rest =>
    if c.isWhitespace then
      (if acc.isEmpty then [] else [acc.reverse]) ++ wsTokensAux [] rest
    else
      wsTokensAux (c :: acc) rest

/-- The non-empty tokens of a string, split on whitespace.  Applied to an
already-trimmed string this coincides with JavaScript's
`trimmed.split(/\s+/)` (which yields no empty pieces on trimmed input). -/
def wsTokens (s : String) : List String :=
  (wsTokensAux [] s.data).map fun tok => ⟨tok⟩

/-- JavaScript `s.split(/\s+/)` without trimming: like `wsTokens`, plus an
empty leading piece when the string starts with whitespace, an empty trailing
piece when it ends with whitespace, and `[""]` on the empty string. -/
def jsSplitWs (s : String) : List String :=
  if s.data.isEmpty then [""]
  else
    (if (s.data.headD 'x').isWhitespace then [""] else []) ++
      wsTokens s ++
      (if (s.data.getLastD 'x').isWhitespace then [""] else [])

/-! ### Terminal Resolver — `detectTerminalEmulator` and its sub-strategies -/

/-- Steps 1–5 of `detectTerminalEmulator` (`src/notifier.ts:179-214`): the
direct environment-marker chain.  `none` means the chain is inconclusive and
the resolver falls through to the tmux / process-tree strategies. -/
def envStrategy (e : Env) : Option TerminalType :=
  if jsTruthy e.CURSOR_TRACE_ID then some .Cursor
  else if jsTruthy e.VSCODE_IPC_HOOK_CLI then
    if jsIncludes (e.VSCODE_IPC_HOOK_CLI.getD "") "Cursor" then some .Cursor
    else some .VSCode
  else if jsTruthy e.VSCODE_REMOTE || jsTruthy e.VSCODE_PID then some .VSCode
  else if jsTruthy e.ALACRITTY_WINDOW_ID || jsTruthy e.ALACRITTY_SOCKET then some .alacritty
  else if jsTruthy e.TERM_PROGRAM then
    if e.TERM_PROGRAM = some "iTerm.app" then some .iTerm2
    else if e.TERM_PROGRAM = some "Apple_Terminal" then some .Terminal
    else if e.TERM_PROGRAM = some "alacritty" then some .alacritty
    else none
  else none

/-- A parsed line of `tmux list-clients` output
(`#\x7bclient_tty\x7d|#\x7bclient_session\x7d|#\x7bclient_activity\x7d`);
`activity` is `Number(activity)`, `none` modelling `NaN`. -/
structure Client where
  tty : String
  session : String
  activity : Option Int
  deriving DecidableEq, Repr

/-- The record `getActiveClientInfo` resolves to (`activity` stringified back,
as in the source's `activity.toString()`). -/
structure ClientInfo where
  tty : String
  session : String
  activity : String
  deriving DecidableEq, Repr

/-- `activity.toString()`: `NaN` prints as `"NaN"`. -/
def numToString : Option Int → String
  | some n => toString n
  | none => "NaN"

/-- One line of `list-clients` output → `Client`
(`const [tty, session, activity] = line.split('|')`; a missing third field is
`Number(undefined) = NaN`). -/
def parseClientLine (line : String) : Client :=
  let parts := jsSplitChar '|' line
  { tty := parts.getD 0 ""
    session := parts.getD 1 ""
    activity := match parts.get? 2 with
      | some a => jsNumber a
      | none => none }

/-- JavaScript `curr.activity > prev.activity`: strict comparison, false when
either side is `NaN`. -/
def jsGtAct (curr prev : Option Int) : Bool :=
  match curr, prev with
  | some c, some p => p < c
  | _, _ => false

/-- The numeric activity of a client whose timestamp parsed (`0` is a dummy
for the `NaN` case, ruled out by hypothesis wherever `actD` appears). -/
def actD (c : Client) : Int :=
  c.activity.getD 0

/-- `Array.prototype.reduce` with no initial value, specialised to the
client-selection callback `(prev, curr) => curr.activity > prev.activity ?
curr : prev` (`src/notifier.ts:127-129`). -/
def reduceActive : Client → List Client → Client
  | prev, [] => prev
  | prev, curr :: rest =>
    reduceActive (if jsGtAct curr.activity prev.activity then curr else prev) rest

/-- The most-recently-active client of a list.  `reduce` on an empty array
throws a `TypeError`, which `getActiveClientInfo`'s `catch` turns into
`null`, so the empty case is `none`. -/
def selectActive : List Client → Option Client
  | [] => none
  | c :: cs => some (reduceActive c cs)

/-- The `ClientInfo` record built from the selected client
(`src/notifier.ts:131-135`). -/
def clientToInfo (c : Client) : ClientInfo :=
  ⟨c.tty, c.session, numToString c.activity⟩

/-- The `tmux display-message` query for the current session name
(used by both `getActiveClientInfo` and `getCurrentTmuxInfo`). -/
def sessionQueryArgs : List String := ["display-message", "-p", "#\x7bsession_name\x7d"]

/-- The `tmux list-clients` invocation of `getActiveClientInfo`
(`src/notifier.ts:109-115`). -/
def listClientsArgs (currentSession : String) : List String :=
  ["list-clients", "-t", jsTrim currentSession, "-F",
   "#\x7bclient_tty\x7d|#\x7bclient_session\x7d|#\x7bclient_activity\x7d"]

/-- `getActiveClientInfo` (`src/notifier.ts:91-139`), inside its `try`:
errors of the two tmux commands propagate to the surrounding `catch`. -/
def getActiveClientInfoE (w : World) : Except CmdErr (Option ClientInfo) :=
  if jsTruthy w.env.TMUX_PANE then
    match w.run "tmux" sessionQueryArgs with
    | .error e => .error e
    | .ok cs =>
      if cs = "" then .ok none
      else
        match w.run "tmux" (listClientsArgs cs) with
        | .error e => .error e
        | .ok clientsOutput =>
          let clients :=
            ((jsSplitChar '\n' (jsTrim clientsOutput)).filter (· ≠ "")).map parseClientLine
          match selectActive clients with
          | none => .ok none
          | some c => .ok (some (clientToInfo c))
  else .ok none

/-- `getActiveClientInfo`: the `catch` yields `null` on any command error. -/
def getActiveClientInfo (w : World) : Option ClientInfo :=
  match getActiveClientInfoE w with
  | .ok r => r
  | .error _ => none

/-- The per-line loop of `detectTerminalFromClient` (`src/notifier.ts:152-167`):
for each `lsof` output line, look up the process's command name with `ps` and
match it against the terminal-name table; a `ps` failure propagates to the
surrounding `catch`. -/
def ttyLinesLoop (w : World) : List String → Except CmdErr TerminalType
  | [] => pure .Unknown
  | line :: rest =>
    let parts := jsSplitWs line
    if parts.length < 2 then ttyLinesLoop w rest
    else
      match w.run "ps" ["-p", parts.getD 1 "", "-o", "comm="] with
      | .error e => .error e
      | .ok psOutput =>
        let command := jsTrim psOutput
        if jsIncludes command "Cursor" then .ok .Cursor
        else if jsIncludes command "Code" then .ok .VSCode
        else if jsIncludes command "iTerm2" then .ok .iTerm2
        else if jsIncludes command "Terminal" then .ok .Terminal
        else if jsIncludes command "alacritty" then .ok .alacritty
        else ttyLinesLoop w rest

/-- `detectTerminalFromClient` (`src/notifier.ts:144-173`): find the terminal
process holding the active client's TTY open; any command failure is caught
and the strategy degrades to `Unknown`. -/
def detectTerminalFromClient (w : World) (clientTty : String) : TerminalType :=
  let r : Except CmdErr TerminalType :=
    match w.run "lsof" [clientTty] with
    | .error e => .error e
    | .ok lsofOutput => ttyLinesLoop w ((jsSplitChar '\n' (jsTrim lsofOutput)).drop 1)
  match r with
  | .ok t => t
  | .error _ => .Unknown

/-- The body of the `try` block of step 6 of `detectTerminalEmulator`
(`src/notifier.ts:218-260`): multiplexer active-client detection.
`pure (some t)` models an early `return t`; `pure none` models falling out of
the block to the process-tree fallback. -/
def tmuxStrategyE (w : World) : Except CmdErr (Option TerminalType) :=
  let viaClient : Option TerminalType :=
    match getActiveClientInfo w with
    | some clientInfo =>
      let detectedTerminal := detectTerminalFromClient w clientInfo.tty
      if detectedTerminal ≠ .Unknown then some detectedTerminal else none
    | none => none
  match viaClient with
  | some t => .ok (some t)
  | none =>
    match w.run "tmux" ["display-message", "-p", "#\x7bclient_termname\x7d"] with
    | .error e => .error e
    | .ok clientTerm =>
      if jsIncludes clientTerm "iterm" || jsIncludes clientTerm "iTerm" then
        .ok (some .iTerm2)
      else if jsIncludes clientTerm "Apple_Terminal" then
        .ok (some .Terminal)
      else
        match w.run "tmux" ["show-environment", "-g", "TERM_PROGRAM"] with
        | .ok clientEnv =>
          if jsIncludes clientEnv "TERM_PROGRAM=iTerm.app" then .ok (some .iTerm2)
          else if jsIncludes clientEnv "TERM_PROGRAM=Apple_Terminal" then .ok (some .Terminal)
          else .ok none
        | .error _ => .ok none

/-- Step 6 of `detectTerminalEmulator`, with its guard and `catch`: only
attempted inside tmux; any command failure is ignored (inconclusive). -/
def tmuxStrategy (w : World) : Option TerminalType :=
  if jsTruthy w.env.TMUX then
    match tmuxStrategyE w with
    | .ok r => r
    | .error _ => none
  else none

/-- The process-tree walk of `detectTerminalEmulator`
(`src/notifier.ts:267-305`), inside its `try`: query `ps -p pid -o
ppid=,comm=`, stop when the reported parent pid is missing/`NaN`/`0`/`1`,
match the command name against the table, recurse on the parent; `fuel` is
the remaining loop iterations (`maxDepth = 10`).  Exhausting the bound or
breaking yields `none` (→ `Unknown`). -/
def processTreeE (w : World) : Nat → Int → Except CmdErr (Option TerminalType)
  | 0, _ => .ok none
  | fuel + 1, currentPid =>
    match w.run "ps" ["-p", toString currentPid, "-o", "ppid=,comm="] with
    | .error e => .error e
    | .ok psOutput =>
      let toks := wsTokens (jsTrim psOutput)
      match parseJsInt (toks.headD "") with
      | none => .ok none
      | some ppid =>
        if ppid = 0 ∨ ppid = 1 then .ok none
        else
          match toks.get? 1 with
          | some command =>
            if jsIncludes command "Cursor" then .ok (some .Cursor)
            else if jsIncludes command "Code" || jsIncludes command "code-insiders" then
              .ok (some .VSCode)
            else if jsIncludes command "iTerm2" then .ok (some .iTerm2)
            else if jsIncludes command "Terminal" then .ok (some .Terminal)
            else processTreeE w fuel ppid
          | none => processTreeE w fuel ppid

/-- The process-tree fallback with its `catch`: command failures abort the
walk and the strategy is inconclusive. -/
def processTreeStrategy (w : World) : Option TerminalType :=
  match processTreeE w 10 w.pid with
  | .ok r => r
  | .error _ => none

/-- `detectTerminalEmulator` (`src/notifier.ts:178-311`): environment markers,
then (inside tmux) active-client detection, then the process-tree walk, and
`Unknown` when every strategy is inconclusive. -/
def detectTerminalEmulator (w : World) : TerminalType :=
  match envStrategy w.env with
  | some t => t
  | none =>
    match tmuxStrategy w with
    | some t => t
    | none =>
      match processTreeStrategy w with
      | some t => t
      | none => .Unknown

/-! ### Session Directory -/

/-- `TmuxInfo` from `src/notifier.ts`. -/
structure TmuxInfo where
  session : String
  window : String
  pane : String
  deriving DecidableEq, Repr

/-- Second `getCurrentTmuxInfo` query. -/
def windowQueryArgs : List String := ["display-message", "-p", "#\x7bwindow_index\x7d"]

/-- Third `getCurrentTmuxInfo` query. -/
def paneQueryArgs : List String := ["display-message", "-p", "#\x7bpane_index\x7d"]

/-- `getCurrentTmuxInfo` (`src/notifier.ts:388-416`): three sequential tmux
queries; any failure is caught and the whole call yields `null`. -/
def getCurrentTmuxInfo (w : World) : Option TmuxInfo :=
  match w.run "tmux" sessionQueryArgs with
  | .error _ => none
  | .ok session =>
    match w.run "tmux" windowQueryArgs with
    | .error _ => none
    | .ok window =>
      match w.run "tmux" paneQueryArgs with
      | .error _ => none
      | .ok pane => some ⟨jsTrim session, jsTrim window, jsTrim pane⟩

/-- The `tmux list-sessions` invocation of `listSessions`. -/
def listSessionsArgs : List String := ["list-sessions", "-F", "#\x7bsession_name\x7d"]

/-- `listSessions` (`src/notifier.ts:421-432`): session names, one per output
line; a query failure is caught and yields the empty list. -/
def listSessions (w : World) : List String :=
  match w.run "tmux" listSessionsArgs with
  | .ok output => (jsSplitChar '\n' (jsTrim output)).filter (· ≠ "")
  | .error _ => []

/-- `sessionExists` (`src/notifier.ts:437-440`): membership in `listSessions`. -/
def sessionExists (w : World) (session : String) : Bool :=
  (listSessions w).contains session

/-! ### Constructor — app-bundle path resolution -/

/-- `path.join` restricted to what the constructor builds: segments joined by
`/` (node's `..`-normalisation is elided; only non-emptiness and identity of
the two probed locations matter to the claims). -/
def joinPath : List String → String
  | [] => ""
  | [p] => p
  | p :: rest => p ++ "/" ++ joinPath rest

/-- The two probed bundle locations (`src/notifier.ts:44-54`): relative to the
package installation, then the development path. -/
def possiblePaths (metaDir cwd : String) : List String :=
  [joinPath [metaDir, "..", "MacOSNotifyMCP", "MacOSNotifyMCP.app"],
   joinPath [cwd, "MacOSNotifyMCP", "MacOSNotifyMCP.app"]]

/-- The constructor's probe branch (`src/notifier.ts:43-67`): first existing
probed location, else (`if (!this.appPath)`) the first probed location. -/
def probedAppPath (pathExists : String → Bool) (metaDir cwd : String) : String :=
  let paths := possiblePaths metaDir cwd
  let found := (paths.find? pathExists).getD ""
  if found = "" then paths.headD "" else found

/-- `TmuxNotifier`'s constructor (`src/notifier.ts:39-68`): a truthy
`customAppPath` is taken as-is, otherwise the probe branch runs. -/
def initAppPath (customAppPath : Option String) (pathExists : String → Bool)
    (metaDir cwd : String) : String :=
  match customAppPath with
  | some c => if c = "" then probedAppPath pathExists metaDir cwd else c
  | none => probedAppPath pathExists metaDir cwd

/-- The notifier's relevant instance state: `appPath` and `defaultTitle`. -/
structure NotifierState where
  appPath : String
  defaultTitle : String
  deriving DecidableEq, Repr

/-- `new TmuxNotifier()` (no custom path) against a world snapshot. -/
def mkNotifier (w : World) : NotifierState :=
  ⟨initAppPath none w.pathExists w.metaDir w.cwd, w.defaultTitle⟩

/-! ### Notification Dispatcher -/

/-- `NotificationOptions` from `src/notifier.ts` (`title`/`sound` defaults are
applied by destructuring, i.e. only when the field is `undefined`). -/
structure NotificationOptions where
  title : Option String
  message : String
  sound : Option String
  session : Option String
  window : Option String
  pane : Option String
  deriving DecidableEq, Repr

/-- The conditional coordinate arguments of `sendNotification`
(`src/notifier.ts:485-493`): `-s` for a truthy session; inside that, `-w` for
a defined non-empty window and `-p` for a defined non-empty pane — the pane
check does not look at the window. -/
def dispatchTailArgs (session window pane : Option String) : List String :=
  match session with
  | none => []
  | some s =>
    if s = "" then []
    else
      ["-s", s] ++
        (match window with
         | some wnd => if wnd = "" then [] else ["-w", wnd]
         | none => []) ++
        (match pane with
         | some p => if p = "" then [] else ["-p", p]
         | none => [])

/-- The full `/usr/bin/open` argument list assembled by `sendNotification`
(`src/notifier.ts:471-493`). -/
def openArgs (st : NotifierState) (o : NotificationOptions) (terminal : TerminalType) :
    List String :=
  ["-n", st.appPath, "--args",
   "-t", o.title.getD st.defaultTitle,
   "-m", o.message,
   "--sound", o.sound.getD "Glass",
   "--terminal", terminalName terminal] ++
    dispatchTailArgs o.session o.window o.pane

/-- `sendNotification`'s failure modes: the `'MacOSNotifyMCP.app not found'`
guard, or the Command Runner's error from launching the primitive. -/
inductive SendErr where
  | appNotFound
  | cmdFailed (e : CmdErr)
  deriving DecidableEq, Repr

/-- External effects a front-end call performs, in order, at the granularity
the spec speaks about: a multiplexer (tmux) query, an invocation of the
Terminal Resolver, and the launch of the native primitive. -/
inductive Effect where
  | tmuxQuery (args : List String)
  | resolver
  | openLaunch
  deriving DecidableEq, Repr

/-- `sendNotification` (`src/notifier.ts:452-496`) with its effect trace: the
app-path guard fires before any external work; otherwise the Terminal
Resolver runs, then the primitive is launched via `/usr/bin/open`. -/
def sendNotificationFx (st : NotifierState) (o : NotificationOptions) (w : World) :
    List Effect × Except SendErr Unit :=
  if st.appPath = "" then ([], .error .appNotFound)
  else
    let terminal := detectTerminalEmulator w
    match w.run "/usr/bin/open" (openArgs st o terminal) with
    | .ok _ => ([.resolver, .openLaunch], .ok ())
    | .error e => ([.resolver, .openLaunch], .error (.cmdFailed e))

/-- `sendNotification`'s result, effects erased. -/
def sendNotification (st : NotifierState) (o : NotificationOptions) (w : World) :
    Except SendErr Unit :=
  (sendNotificationFx st o w).2

/-! ### Click Router — the `switch-client` target string -/

/-- `focusToTmux` (`MacOSNotifyMCP/main.swift:120-140`): the `switch-client`
target is `session`, then `":" + window` if a window was embedded, and only
inside that `"." + pane` if a pane was embedded. -/
def tmuxTarget (session : String) (window pane : Option String) : String :=
  session ++
    match window with
    | none => ""
    | some wnd =>
      ":" ++ wnd ++
        match pane with
        | none => ""
        | some p => "." ++ p

/-! ### Front ends — effect-instrumented notifier operations -/

/-- `getCurrentTmuxInfo` with its trace of issued tmux queries (the third
query is only issued when the first two succeeded, and so on). -/
def getCurrentTmuxInfoFx (w : World) : List Effect × Option TmuxInfo :=
  match w.run "tmux" sessionQueryArgs with
  | .error _ => ([.tmuxQuery sessionQueryArgs], none)
  | .ok session =>
    match w.run "tmux" windowQueryArgs with
    | .error _ => ([.tmuxQuery sessionQueryArgs, .tmuxQuery windowQueryArgs], none)
    | .ok window =>
      match w.run "tmux" paneQueryArgs with
      | .error _ =>
        ([.tmuxQuery sessionQueryArgs, .tmuxQuery windowQueryArgs, .tmuxQuery paneQueryArgs],
         none)
      | .ok pane =>
        ([.tmuxQuery sessionQueryArgs, .tmuxQuery windowQueryArgs, .tmuxQuery paneQueryArgs],
         some ⟨jsTrim session, jsTrim window, jsTrim pane⟩)

/-- `listSessions` with its single tmux query recorded. -/
def listSessionsFx (w : World) : List Effect × List String :=
  ([.tmuxQuery listSessionsArgs], listSessions w)

/-- `sessionExists` with its (inherited) tmux query recorded. -/
def sessionExistsFx (w : World) (session : String) : List Effect × Bool :=
  ([.tmuxQuery listSessionsArgs], sessionExists w session)

/-! ### CLI front end — `main` in `src/cli.ts` -/

/-- `CliOptions` from `src/cli.ts` (`message` starts as `''`, the rest
`undefined`). -/
structure CliOptions where
  message : String
  title : Option String
  sound : Option String
  session : Option String
  window : Option String
  pane : Option String
  deriving DecidableEq, Repr

/-- The freshly-initialised `CliOptions`. -/
def CliOptions.init : CliOptions := ⟨"", none, none, none, none, none⟩

/-- A `CliOptions` as the `NotificationOptions` handed to `sendNotification`. -/
def CliOptions.toNotification (o : CliOptions) : NotificationOptions :=
  ⟨o.title, o.message, o.sound, o.session, o.window, o.pane⟩

/-- The `--current-tmux` assignment block (`src/cli.ts:329-337` and
`src/index.ts:137-143`): when the current-coordinates query succeeded, its
session/window/pane overwrite the options; otherwise they are left as-is. -/
def useCurrentCoords (o : CliOptions) : Option TmuxInfo → CliOptions
  | some i => { o with session := some i.session, window := some i.window,
                       pane := some i.pane }
  | none => o

/-- The argument-parsing loop of `cli.ts` (`src/cli.ts:304-339`): a value flag
consumes the following argument (a flag at the very end reads `undefined`,
leaving the option falsy, modelled as unchanged for the `Option` fields and
`""` for `message`); `--current-tmux` queries the current coordinates *during
parsing*; unknown arguments are ignored. -/
def cliParse (w : World) : List String → CliOptions → List Effect × CliOptions
  | [], o => ([], o)
  | a :: rest, o =>
    if a = "-m" ∨ a = "--message" then
      match rest with
      | v :: rest2 => cliParse w rest2 { o with message := v }
      | [] => cliParse w [] { o with message := "" }
    else if a = "-t" ∨ a = "--title" then
      match rest with
      | v :: rest2 => cliParse w rest2 { o with title := some v }
      | [] => cliParse w [] o
    else if a = "-s" ∨ a = "--session" then
      match rest with
      | v :: rest2 => cliParse w rest2 { o with session := some v }
      | [] => cliParse w [] o
    else if a = "-w" ∨ a = "--window" then
      match rest with
      | v :: rest2 => cliParse w rest2 { o with window := some v }
      | [] => cliParse w [] o
    else if a = "-p" ∨ a = "--pane" then
      match rest with
      | v :: rest2 => cliParse w rest2 { o with pane := some v }
      | [] => cliParse w [] o
    else if a = "--sound" then
      match rest with
      | v :: rest2 => cliParse w rest2 { o with sound := some v }
      | [] => cliParse w [] o
    else if a = "--current-tmux" then
      let (fx, current) := getCurrentTmuxInfoFx w
      let (fxRest, oFinal) := cliParse w rest (useCurrentCoords o current)
      (fx ++ fxRest, oFinal)
    else
      cliParse w rest o

/-- The distinct exit paths of `cli.ts`'s `main`. -/
inductive CliOutcome where
  | helpExit
  | listSessionsExit
  | missingMessage
  | sessionNotFound (session : String)
  | sent
  | sendFailed
  deriving DecidableEq, Repr

/-- `main` in `src/cli.ts` (`src/cli.ts:257-369`), with its ordered effect
trace: help / list-sessions short-circuits, the parse loop (which may query
tmux for `--current-tmux`), the missing-message validation, the
session-existence check (which on failure lists sessions for the error
message), and finally dispatch. -/
def cliMain (w : World) (args : List String) : List Effect × CliOutcome :=
  if args.contains "--help" ∨ args.contains "-h" then ([], .helpExit)
  else if args.contains "--list-sessions" then
    let (fx, _) := listSessionsFx w
    (fx, .listSessionsExit)
  else
    let (fxParse, options) := cliParse w args CliOptions.init
    if options.message = "" then (fxParse, .missingMessage)
    else
      let sendPart : List Effect × CliOutcome :=
        match sendNotificationFx (mkNotifier w) options.toNotification w with
        | (fx, .ok _) => (fx, .sent)
        | (fx, .error _) => (fx, .sendFailed)
      match options.session with
      | some s =>
        if s = "" then (fxParse ++ sendPart.1, sendPart.2)
        else
          let (fxExists, exists?) := sessionExistsFx w s
          if exists? then (fxParse ++ fxExists ++ sendPart.1, sendPart.2)
          else
            let (fxList, _) := listSessionsFx w
            (fxParse ++ fxExists ++ fxList, .sessionNotFound s)
      | none => (fxParse ++ sendPart.1, sendPart.2)

/-! ### Protocol-tool front end — the `send_notification` handler in `src/index.ts` -/

/-- The handler's view of the tool arguments: JavaScript values modelled by
their stringification (`String(x)`), `none` for an absent property;
`useCurrent` by its truthiness. -/
structure McpArgs where
  message : Option String
  title : Option String
  sound : Option String
  session : Option String
  window : Option String
  pane : Option String
  useCurrent : Bool

/-- `x ? String(x) : undefined`: keep only truthy values. -/
def jsOptional (x : Option String) : Option String :=
  if jsTruthy x then x else none

/-- The handler's result paths (`src/index.ts:118-179`). -/
inductive McpOutcome where
  | missingMessage
  | sessionNotFound (session : String)
  | sent
  | sendError
  deriving DecidableEq, Repr

/-- The `send_notification` tool handler (`src/index.ts:118-179`) with its
ordered effect trace: the missing-message validation first, then either the
current-coordinates query (`useCurrent`) or the explicit coordinates, then
the session-existence validation, then dispatch. -/
def mcpSendNotification (w : World) (a : McpArgs) : List Effect × McpOutcome :=
  if ¬ jsTruthy a.message then ([], .missingMessage)
  else
    let base : NotificationOptions :=
      ⟨jsOptional a.title, a.message.getD "", jsOptional a.sound, none, none, none⟩
    let (fxCoord, options) :=
      if a.useCurrent then
        let (fx, current) := getCurrentTmuxInfoFx w
        (fx,
         match current with
         | some i => { base with session := some i.session, window := some i.window,
                                 pane := some i.pane }
         | none => base)
      else
        ([],
         { base with session := jsOptional a.session, window := jsOptional a.window,
                     pane := jsOptional a.pane })
    let sendPart : List Effect × McpOutcome :=
      match sendNotificationFx (mkNotifier w) options w with
      | (fx, .ok _) => (fx, .sent)
      | (fx, .error _) => (fx, .sendError)
    match options.session with
    | some s =>
      if s = "" then (fxCoord ++ sendPart.1, sendPart.2)
      else
        let (fxExists, exists?) := sessionExistsFx w s
        if exists? then (fxCoord ++ fxExists ++ sendPart.1, sendPart.2)
        else
          let (fxList, _) := listSessionsFx w
          (fxCoord ++ fxExists ++ fxList, .sessionNotFound s)
    | none => (fxCoord ++ sendPart.1, sendPart.2)

/-! ### Concrete snapshots used to evaluate the model on closed inputs -/

/-- A generic command failure. -/
def errCmd : CmdErr := ⟨"Command failed", some 1, "", ""⟩

/-- A world where every external command fails and nothing is set: no
environment markers, no filesystem hits. -/
def failWorld : World where
  env := Env.empty
  pid := 1
  run := fun _ _ => .error errCmd
  pathExists := fun _ => false
  metaDir := "/pkg/dist"
  cwd := "/work"
  defaultTitle := "macos-notify-mcp"

/-- A world where every external command succeeds with output `"main\n"` and
no environment markers are set; the app bundle exists nowhere. -/
def okWorld : World where
  env := Env.empty
  pid := 1
  run := fun _ _ => .ok "main\n"
  pathExists := fun _ => false
  metaDir := "/pkg/dist"
  cwd := "/work"
  defaultTitle := "macos-notify-mcp"

/-- `ps -p <pid> -o ppid=,comm=` outcomes for the process ancestry
`caller(100, node) → shell(90, zsh) → emulator(80, named `comm80`) →
login(70, parent 1)`. -/
def ancestryRun (comm80 : String) : String → List String → Except CmdErr String :=
  fun c a =>
    if c = "ps" ∧ a = ["-p", "100", "-o", "ppid=,comm="] then .ok "   90 node"
    else if c = "ps" ∧ a = ["-p", "90", "-o", "ppid=,comm="] then .ok "   80 zsh"
    else if c = "ps" ∧ a = ["-p", "80", "-o", "ppid=,comm="] then .ok ("   70 " ++ comm80)
    else if c = "ps" ∧ a = ["-p", "70", "-o", "ppid=,comm="] then .ok "    1 login"
    else .error errCmd

/-- No markers, no tmux, process tree `caller → shell → alacritty → login`:
the scenario of the spec's end-to-end test 2. -/
def alacrittyWorld : World where
  env := Env.empty
  pid := 100
  run := ancestryRun "alacritty"
  pathExists := fun _ => false
  metaDir := "/pkg/dist"
  cwd := "/work"
  defaultTitle := "macos-notify-mcp"

/-- The same ancestry with `iTerm2` as the terminal-emulator process name. -/
def iterm2World : World where
  env := Env.empty
  pid := 100
  run := ancestryRun "iTerm2"
  pathExists := fun _ => false
  metaDir := "/pkg/dist"
  cwd := "/work"
  defaultTitle := "macos-notify-mcp"

/-- A world whose single `ps` answer reports parent pid 1 with a
terminal-emulator command name: the walk must stop without matching it. -/
def initParentWorld : World where
  env := Env.empty
  pid := 42
  run := fun c a =>
    if c = "ps" ∧ a = ["-p", "42", "-o", "ppid=,comm="] then .ok "    1 Terminal"
    else .error errCmd
  pathExists := fun _ => false
  metaDir := "/pkg/dist"
  cwd := "/work"
  defaultTitle := "macos-notify-mcp"

/-- A tmux world with three clients on session `main`, the last two tied at
the maximum activity timestamp. -/
def tieWorld : World where
  env := { Env.empty with TMUX := some "/tmp/tmux-1000/default,100,0",
                          TMUX_PANE := some "%0" }
  pid := 1
  run := fun c a =>
    if c = "tmux" ∧ a = sessionQueryArgs then .ok "main"
    else if c = "tmux" ∧ a = listClientsArgs "main" then
      .ok "/dev/ttys000|main|100\n/dev/ttys001|main|250\n/dev/ttys002|main|250"
    else .error errCmd
  pathExists := fun _ => false
  metaDir := "/pkg/dist"
  cwd := "/work"
  defaultTitle := "macos-notify-mcp"

/-- The clients reported by `tieWorld`, parsed. -/
def tieClients : List Client :=
  [⟨"/dev/ttys000", "main", some 100⟩,
   ⟨"/dev/ttys001", "main", some 250⟩,
   ⟨"/dev/ttys002", "main", some 250⟩]

/-- A notifier state as the tests construct it (`new TmuxNotifier('/test/app/path')`). -/
def exampleSt : NotifierState := ⟨"/test/app/path", "macos-notify-mcp"⟩

/-- A request carrying session and pane but no window. -/
def paneNoWindowReq : NotificationOptions :=
  ⟨none, "done", none, some "dev", none, some "2"⟩

/-- A request carrying only a message. -/
def msgOnlyReq : NotificationOptions :=
  ⟨none, "Build done", none, none, none, none⟩

/-- A world where both the Cursor trace-id marker and the generic
`TERM_PROGRAM` marker are set simultaneously. -/
def cursorPlusTermWorld : World where
  env := { Env.empty with CURSOR_TRACE_ID := some "trace-1",
                          TERM_PROGRAM := some "iTerm.app" }
  pid := 1
  run := fun _ _ => .error errCmd
  pathExists := fun _ => false
  metaDir := "/pkg/dist"
  cwd := "/work"
  defaultTitle := "macos-notify-mcp"

/-! ## Theorems -/

/-- A string append is non-empty whenever its right part is. -/
theorem append_ne_empty_right (s t : String) (ht : t ≠ "") : s ++ t ≠ "" := by
  intro h
  apply ht
  have hd : s.data ++ t.data = ([] : List Char) := by
    have h2 := congrArg String.data h
    simpa [String.data_append] using h2
  exact String.ext ((List.append_eq_nil.mp hd).2.trans rfl)

/-- Claim C1 (counterexample): a request carrying session `"dev"` and pane
`"2"` but no window is not truncated to session-only before the dispatched
`/usr/bin/open` invocation of the native primitive — the dispatched argument
list still carries `-p 2` (and no `-w`), so pane is attached alone. -/
theorem dispatch_pane_without_window_counterexample :
    dispatchTailArgs (some "dev") none (some "2") = ["-s", "dev", "-p", "2"] ∧
    "-p" ∈ openArgs exampleSt paneNoWindowReq .Unknown ∧
    "-w" ∉ openArgs exampleSt paneNoWindowReq .Unknown := by
  decide

/-- Claim C1 (amended): dispatch forwards the pane even when the window is
absent (`-s s -p p` with no `-w`), but the click handler's `switch-client`
target string appends `"." ++ pane` only inside `":" ++ window`: with no
window the target is the bare session, so a session+pane request without a
window effectively switches to the session only. -/
theorem dispatch_pane_and_target_shape (s wnd p : String) (hs : s ≠ "") (hp : p ≠ "") :
    dispatchTailArgs (some s) none (some p) = ["-s", s, "-p", p] ∧
    tmuxTarget s none (some p) = s ∧
    tmuxTarget s (some wnd) (some p) = s ++ ":" ++ wnd ++ "." ++ p ∧
    tmuxTarget s (some wnd) none = s ++ ":" ++ wnd := by
  refine ⟨?_, ?_, ?_, ?_⟩
  · simp [dispatchTailArgs, hs, hp]
  · apply String.ext
    simp [tmuxTarget, String.data_append]
  · apply String.ext
    simp [tmuxTarget, String.data_append]
  · apply String.ext
    simp [tmuxTarget, String.data_append]

/-- Witness for the amended C1 at session `"dev"`, window `"1"`, pane `"2"`. -/
theorem dispatch_pane_and_target_shape_witness :
    dispatchTailArgs (some "dev") none (some "2") = ["-s", "dev", "-p", "2"] ∧
    tmuxTarget "dev" none (some "2") = "dev" ∧
    tmuxTarget "dev" (some "1") (some "2") = "dev" ++ ":" ++ "1" ++ "." ++ "2" ∧
    tmuxTarget "dev" (some "1") none = "dev" ++ ":" ++ "1" :=
  dispatch_pane_and_target_shape "dev" "1" "2" (by decide) (by decide)

/-- Claim C5 (counterexample): with no environment markers and the multiplexer
marker absent, ancestry `caller → shell → alacritty → login` does not resolve
to `alacritty`: the process-tree table of `detectTerminalEmulator` has no
alacritty entry, so the resolver yields `Unknown`. -/
theorem process_tree_alacritty_counterexample :
    detectTerminalEmulator alacrittyWorld = .Unknown ∧
    ¬ detectTerminalEmulator alacrittyWorld = .alacritty := by
  decide

/-- Claim C5 (amended): the 3-hop walk scenario holds for emulators in the
walk's table (`iTerm2` here) but not for alacritty, which the table omits
(that ancestry yields `Unknown`); exhausting the 10-hop bound without a match
is inconclusive (hence `Unknown`). -/
theorem process_tree_walk_behaviour :
    detectTerminalEmulator iterm2World = .iTerm2 ∧
    detectTerminalEmulator alacrittyWorld = .Unknown ∧
    (∀ w pid, processTreeE w 0 pid = Except.ok none) :=
  ⟨by decide, by decide, fun _ _ => rfl⟩

/-- Claim C10: at any hop of the process-tree walk, if the `ps` answer's
reported parent pid is unparseable (`NaN`), `0`, or `1`, the walk stops
without matching that answer's command name against the terminal-name table —
whatever that command name is. -/
theorem process_tree_stops_at_init_parent (w : World) (fuel : Nat) (pid : Int) (out : String)
    (hrun : w.run "ps" ["-p", toString pid, "-o", "ppid=,comm="] = .ok out)
    (hstop : parseJsInt ((wsTokens (jsTrim out)).headD "") = none ∨
             parseJsInt ((wsTokens (jsTrim out)).headD "") = some 0 ∨
             parseJsInt ((wsTokens (jsTrim out)).headD "") = some 1) :
    processTreeE w (fuel + 1) pid = Except.ok none := by
  simp only [processTreeE, hrun]
  simp only [List.headD_eq_head?_getD] at hstop ⊢
  rcases hstop with h | h | h <;> rw [h] <;> simp

/-- Witness for C10: a `ps` answer `"    1 Terminal"` (parent pid 1, command
name in the table) stops the walk without a match. -/
theorem process_tree_stops_at_init_parent_witness :
    initParentWorld.run "ps" ["-p", toString (42 : Int), "-o", "ppid=,comm="] =
      .ok "    1 Terminal" ∧
    processTreeE initParentWorld 1 42 = Except.ok none := by
  refine ⟨by decide, ?_⟩
  exact process_tree_stops_at_init_parent initParentWorld 0 42 "    1 Terminal"
    (by decide) (by decide)

/-- When the environment-marker chain concludes, the resolver returns its
answer unconditionally. -/
theorem detect_of_envStrategy (w : World) (t : TerminalType)
    (h : envStrategy w.env = some t) : detectTerminalEmulator w = t := by
  simp [detectTerminalEmulator, h]

/-- Claim C2: the resolver is total — for every environment snapshot and every
outcome of the external commands (including failures) it returns exactly one
value of the closed `TerminalType` set, and when no strategy concludes the
result is the valid non-error value `Unknown`. -/
theorem detect_terminal_total (w : World) :
    detectTerminalEmulator w ∈
      ([.VSCode, .Cursor, .iTerm2, .Terminal, .alacritty, .Unknown] : List TerminalType) ∧
    (envStrategy w.env = none → tmuxStrategy w = none → processTreeStrategy w = none →
      detectTerminalEmulator w = .Unknown) := by
  constructor
  · cases h : detectTerminalEmulator w <;> decide
  · intro h1 h2 h3
    simp [detectTerminalEmulator, h1, h2, h3]

/-- Witness for C2 at a world where every command fails and no marker is set:
every strategy is inconclusive and the result is `Unknown`. -/
theorem detect_terminal_total_witness :
    envStrategy failWorld.env = none ∧ tmuxStrategy failWorld = none ∧
    processTreeStrategy failWorld = none ∧ detectTerminalEmulator failWorld = .Unknown :=
  ⟨by decide, by decide, by decide,
   (detect_terminal_total failWorld).2 (by decide) (by decide) (by decide)⟩

/-- Claim C3: environment markers are evaluated in a fixed priority order —
Cursor trace-id, then the VSCode IPC hook, then VSCode remote/pid, then the
alacritty socket/window-id, then `TERM_PROGRAM` (recognising its three
literal values) — so when a specific IDE marker and the generic
`TERM_PROGRAM` marker are both set, the resolver returns the IDE identity. -/
theorem env_marker_priority (w : World) :
    ((jsTruthy w.env.CURSOR_TRACE_ID = true ∨ jsTruthy w.env.VSCODE_IPC_HOOK_CLI = true) →
      jsTruthy w.env.TERM_PROGRAM = true →
      detectTerminalEmulator w = .Cursor ∨ detectTerminalEmulator w = .VSCode) ∧
    (jsTruthy w.env.CURSOR_TRACE_ID = true → detectTerminalEmulator w = .Cursor) ∧
    (jsTruthy w.env.CURSOR_TRACE_ID = false → jsTruthy w.env.VSCODE_IPC_HOOK_CLI = true →
      detectTerminalEmulator w =
        (if jsIncludes (w.env.VSCODE_IPC_HOOK_CLI.getD "") "Cursor" then .Cursor
         else .VSCode)) ∧
    (jsTruthy w.env.CURSOR_TRACE_ID = false → jsTruthy w.env.VSCODE_IPC_HOOK_CLI = false →
      (jsTruthy w.env.VSCODE_REMOTE = true ∨ jsTruthy w.env.VSCODE_PID = true) →
      detectTerminalEmulator w = .VSCode) ∧
    (jsTruthy w.env.CURSOR_TRACE_ID = false → jsTruthy w.env.VSCODE_IPC_HOOK_CLI = false →
      jsTruthy w.env.VSCODE_REMOTE = false → jsTruthy w.env.VSCODE_PID = false →
      (jsTruthy w.env.ALACRITTY_WINDOW_ID = true ∨ jsTruthy w.env.ALACRITTY_SOCKET = true) →
      detectTerminalEmulator w = .alacritty) ∧
    (jsTruthy w.env.CURSOR_TRACE_ID = false → jsTruthy w.env.VSCODE_IPC_HOOK_CLI = false →
      jsTruthy w.env.VSCODE_REMOTE = false → jsTruthy w.env.VSCODE_PID = false →
      jsTruthy w.env.ALACRITTY_WINDOW_ID = false → jsTruthy w.env.ALACRITTY_SOCKET = false →
      w.env.TERM_PROGRAM = some "iTerm.app" → detectTerminalEmulator w = .iTerm2) ∧
    (jsTruthy w.env.CURSOR_TRACE_ID = false → jsTruthy w.env.VSCODE_IPC_HOOK_CLI = false →
      jsTruthy w.env.VSCODE_REMOTE = false → jsTruthy w.env.VSCODE_PID = false →
      jsTruthy w.env.ALACRITTY_WINDOW_ID = false → jsTruthy w.env.ALACRITTY_SOCKET = false →
      w.env.TERM_PROGRAM = some "Apple_Terminal" → detectTerminalEmulator w = .Terminal) ∧
    (jsTruthy w.env.CURSOR_TRACE_ID = false → jsTruthy w.env.VSCODE_IPC_HOOK_CLI = false →
      jsTruthy w.env.VSCODE_REMOTE = false → jsTruthy w.env.VSCODE_PID = false →
      jsTruthy w.env.ALACRITTY_WINDOW_ID = false → jsTruthy w.env.ALACRITTY_SOCKET = false →
      w.env.TERM_PROGRAM = some "alacritty" → detectTerminalEmulator w = .alacritty) := by
  refine ⟨?_, ?_, ?_, ?_, ?_, ?_, ?_, ?_⟩
  · intro hid _
    by_cases hc : jsTruthy w.env.CURSOR_TRACE_ID = true
    · exact Or.inl (detect_of_envStrategy w _ (by simp [envStrategy, hc]))
    · have hipc : jsTruthy w.env.VSCODE_IPC_HOOK_CLI = true := by
        rcases hid with h | h
        · exact absurd h hc
        · exact h
      have hc2 : jsTruthy w.env.CURSOR_TRACE_ID = false := by
        simpa using hc
      by_cases hcur : jsIncludes (w.env.VSCODE_IPC_HOOK_CLI.getD "") "Cursor" = true
      · exact Or.inl (detect_of_envStrategy w _ (by simp [envStrategy, hc2, hipc, hcur]))
      · have hcur2 : jsIncludes (w.env.VSCODE_IPC_HOOK_CLI.getD "") "Cursor" = false := by
          simpa using hcur
        exact Or.inr (detect_of_envStrategy w _ (by simp [envStrategy, hc2, hipc, hcur2]))
  · intro hc
    exact detect_of_envStrategy w _ (by simp [envStrategy, hc])
  · intro hc hipc
    by_cases hcur : jsIncludes (w.env.VSCODE_IPC_HOOK_CLI.getD "") "Cursor" = true
    · rw [if_pos hcur]
      exact detect_of_envStrategy w _ (by simp [envStrategy, hc, hipc, hcur])
    · have hcur2 : jsIncludes (w.env.VSCODE_IPC_HOOK_CLI.getD "") "Cursor" = false := by
        simpa using hcur
      rw [hcur2]
      simp only [Bool.false_eq_true, if_false]
      exact detect_of_envStrategy w _ (by simp [envStrategy, hc, hipc, hcur2])
  · intro hc hipc hrp
    rcases hrp with h | h <;>
      exact detect_of_envStrategy w _ (by simp [envStrategy, hc, hipc, h])
  · intro hc hipc hr hp hal
    rcases hal with h | h <;>
      exact detect_of_envStrategy w _ (by simp [envStrategy, hc, hipc, hr, hp, h])
  · intro hc hipc hr hp haw has htp
    apply detect_of_envStrategy w
    simp [envStrategy, hc, hipc, hr, hp, haw, has, htp]
    decide
  · intro hc hipc hr hp haw has htp
    apply detect_of_envStrategy w
    simp [envStrategy, hc, hipc, hr, hp, haw, has, htp]
    decide
  · intro hc hipc hr hp haw has htp
    apply detect_of_envStrategy w
    simp [envStrategy, hc, hipc, hr, hp, haw, has, htp]
    decide

/-- Witness for C3: Cursor trace-id and `TERM_PROGRAM=iTerm.app` set together
resolve to the IDE identity `Cursor`. -/
theorem env_marker_priority_witness :
    jsTruthy cursorPlusTermWorld.env.CURSOR_TRACE_ID = true ∧
    jsTruthy cursorPlusTermWorld.env.TERM_PROGRAM = true ∧
    (detectTerminalEmulator cursorPlusTermWorld = .Cursor ∨
      detectTerminalEmulator cursorPlusTermWorld = .VSCode) ∧
    detectTerminalEmulator cursorPlusTermWorld = .Cursor :=
  ⟨by decide, by decide,
   (env_marker_priority cursorPlusTermWorld).1 (Or.inl (by decide)) (by decide),
   (env_marker_priority cursorPlusTermWorld).2.1 (by decide)⟩

/-- Claim C7: `getCurrentTmuxInfo` yields a value exactly when all three
sequential tmux queries succeed, and then it carries all three coordinates
(trimmed); if any query fails, the whole operation yields `null`. -/
theorem current_info_all_or_nothing (w : World) :
    ((∃ info, getCurrentTmuxInfo w = some info) ↔
      ((∃ s, w.run "tmux" sessionQueryArgs = .ok s) ∧
       (∃ wi, w.run "tmux" windowQueryArgs = .ok wi) ∧
       (∃ p, w.run "tmux" paneQueryArgs = .ok p))) ∧
    (∀ s wi p, w.run "tmux" sessionQueryArgs = .ok s →
      w.run "tmux" windowQueryArgs = .ok wi →
      w.run "tmux" paneQueryArgs = .ok p →
      getCurrentTmuxInfo w = some ⟨jsTrim s, jsTrim wi, jsTrim p⟩) := by
  constructor
  · constructor
    · rintro ⟨info, hinfo⟩
      unfold getCurrentTmuxInfo at hinfo
      rcases h1 : w.run "tmux" sessionQueryArgs with e | s <;> rw [h1] at hinfo
      · cases hinfo
      rcases h2 : w.run "tmux" windowQueryArgs with e | wi <;> rw [h2] at hinfo
      · cases hinfo
      rcases h3 : w.run "tmux" paneQueryArgs with e | p <;> rw [h3] at hinfo
      · cases hinfo
      exact ⟨⟨s, rfl⟩, ⟨wi, rfl⟩, ⟨p, rfl⟩⟩
    · rintro ⟨⟨s, h1⟩, ⟨wi, h2⟩, ⟨p, h3⟩⟩
      exact ⟨⟨jsTrim s, jsTrim wi, jsTrim p⟩, by simp [getCurrentTmuxInfo, h1, h2, h3]⟩
  · intro s wi p h1 h2 h3
    simp [getCurrentTmuxInfo, h1, h2, h3]

/-- Witness for C7 at a world where all three queries answer `"main\n"`. -/
theorem current_info_all_or_nothing_witness :
    getCurrentTmuxInfo okWorld =
      some ⟨jsTrim "main\n", jsTrim "main\n", jsTrim "main\n"⟩ :=
  (current_info_all_or_nothing okWorld).2 "main\n" "main\n" "main\n" rfl rfl rfl

/-- Claim C8: `listSessions` degrades a query failure to the empty sequence,
and `sessionExists` is exactly membership in `listSessions` — in particular
it is `false` whenever `listSessions` is empty. -/
theorem sessions_fallback_and_membership (w : World) (name : String) :
    (∀ e, w.run "tmux" listSessionsArgs = .error e → listSessions w = []) ∧
    sessionExists w name = (listSessions w).contains name ∧
    (listSessions w = [] → sessionExists w name = false) := by
  refine ⟨?_, rfl, ?_⟩
  · intro e he
    simp [listSessions, he]
  · intro h
    simp [sessionExists, h]

/-- Witness for C8 at the failing world and the name `"x"`. -/
theorem sessions_fallback_and_membership_witness :
    listSessions failWorld = [] ∧ sessionExists failWorld "x" = false := by
  have h := (sessions_fallback_and_membership failWorld "x").1 errCmd rfl
  exact ⟨h, (sessions_fallback_and_membership failWorld "x").2.2 h⟩

/-- Claim C4 (counterexample): with no custom path supplied and the bundle
existing at none of the probed locations (`okWorld.pathExists` is constantly
`false`), the constructor falls back to the first probed location — a
non-empty path — so `sendNotification` does not fail with the
`'MacOSNotifyMCP.app not found'` error; it proceeds to the launch attempt
(which here succeeds). -/
theorem config_error_counterexample :
    (mkNotifier okWorld).appPath ≠ "" ∧
    sendNotification (mkNotifier okWorld) msgOnlyReq okWorld = Except.ok () := by
  decide

/-- Claim C4 (amended): the `'MacOSNotifyMCP.app not found'` configuration
error fires exactly when the stored app path is the empty string (and then
before any launch attempt), but the constructor never produces an empty app
path — with no bundle found anywhere it still falls back to the first probed
location, so the claimed situation instead surfaces as the Command Runner's
launch error. -/
theorem config_error_iff_empty_path :
    (∀ st o w, sendNotification st o w = Except.error .appNotFound ↔ st.appPath = "") ∧
    (∀ st o w, st.appPath = "" → (sendNotificationFx st o w).1 = []) ∧
    (∀ customAppPath pathExists metaDir cwd,
      initAppPath customAppPath pathExists metaDir cwd ≠ "") := by
  refine ⟨?_, ?_, ?_⟩
  · intro st o w
    by_cases h : st.appPath = ""
    · simp [sendNotification, sendNotificationFx, h]
    · simp only [sendNotification, sendNotificationFx, h, if_false]
      cases hr : w.run "/usr/bin/open" (openArgs st o (detectTerminalEmulator w)) <;>
        simp [hr, h]
  · intro st o w h
    simp [sendNotificationFx, h]
  · intro customAppPath pathExists metaDir cwd
    have h1 : joinPath ["..", "MacOSNotifyMCP", "MacOSNotifyMCP.app"] ≠ "" := by decide
    have h2 : joinPath ["MacOSNotifyMCP", "MacOSNotifyMCP.app"] ≠ "" := by decide
    have hp1 : joinPath [metaDir, "..", "MacOSNotifyMCP", "MacOSNotifyMCP.app"] ≠ "" :=
      append_ne_empty_right (metaDir ++ "/") _ h1
    have hp2 : joinPath [cwd, "MacOSNotifyMCP", "MacOSNotifyMCP.app"] ≠ "" :=
      append_ne_empty_right (cwd ++ "/") _ h2
    have hprobed : probedAppPath pathExists metaDir cwd ≠ "" := by
      unfold probedAppPath possiblePaths
      rcases hf : List.find? pathExists
          [joinPath [metaDir, "..", "MacOSNotifyMCP", "MacOSNotifyMCP.app"],
           joinPath [cwd, "MacOSNotifyMCP", "MacOSNotifyMCP.app"]] with _ | p
      · simpa [hf] using hp1
      · have hmem := List.mem_of_find?_eq_some hf
        simp only [List.mem_cons, List.mem_singleton, List.not_mem_nil, or_false] at hmem
        by_cases hpe : p = ""
        · rcases hmem with hm | hm
          · exact absurd hm.symm (by rw [hpe] at hm; exact absurd hm.symm hp1)
          · exact absurd hm.symm (by rw [hpe] at hm; exact absurd hm.symm hp2)
        · simp [hf, hpe]
    cases customAppPath with
    | none => exact hprobed
    | some c =>
      by_cases hc : c = ""
      · simpa [initAppPath, hc] using hprobed
      · simp [initAppPath, hc]

/-- Witness for the amended C4 at the empty app path: the configuration error
fires, with no external work performed. -/
theorem config_error_iff_empty_path_witness :
    sendNotification ⟨"", "macos-notify-mcp"⟩ msgOnlyReq failWorld =
      Except.error .appNotFound ∧
    (sendNotificationFx ⟨"", "macos-notify-mcp"⟩ msgOnlyReq failWorld).1 = [] :=
  ⟨(config_error_iff_empty_path.1 ⟨"", "macos-notify-mcp"⟩ msgOnlyReq failWorld).mpr rfl,
   config_error_iff_empty_path.2.1 ⟨"", "macos-notify-mcp"⟩ msgOnlyReq failWorld rfl⟩

/-- The `reduce` callback with strict `>` keeps the first occurrence of the
maximum: the fold's result sits at an index `i` such that no element exceeds
it and every element before `i` is strictly below it. -/
theorem reduceActive_first_max (c : Client) (cs : List Client)
    (h : ∀ x ∈ c :: cs, x.activity.isSome = true) :
    ∃ i : Fin (c :: cs).length,
      reduceActive c cs = (c :: cs).get i ∧
      (∀ j : Fin (c :: cs).length, actD ((c :: cs).get j) ≤ actD ((c :: cs).get i)) ∧
      (∀ j : Fin (c :: cs).length, (j : Nat) < (i : Nat) →
        actD ((c :: cs).get j) < actD ((c :: cs).get i)) := by
  induction cs generalizing c with
  | nil =>
    refine ⟨⟨0, by simp⟩, rfl, ?_, ?_⟩
    · intro j
      rcases j with ⟨jv, hjv⟩
      simp only [List.length_cons, List.length_nil] at hjv
      have hj0 : jv = 0 := by omega
      subst hj0
      exact le_refl _
    · intro j hj
      exact absurd hj (by simp)
  | cons d cs ih =>
    have hdmem : ∀ x ∈ d :: cs, x.activity.isSome = true := fun x hx =>
      h x (List.mem_cons_of_mem _ hx)
    have hcmem : ∀ x ∈ c :: cs, x.activity.isSome = true := by
      intro x hx
      rcases List.mem_cons.mp hx with hx | hx
      · exact h x (by simp [hx])
      · exact h x (by simp [hx])
    obtain ⟨nc, hnc⟩ := Option.isSome_iff_exists.mp (h c (by simp))
    obtain ⟨nd, hnd⟩ := Option.isSome_iff_exists.mp (h d (by simp))
    have hstep : reduceActive c (d :: cs) =
        reduceActive (if jsGtAct d.activity c.activity then d else c) cs := rfl
    by_cases hgt : jsGtAct d.activity c.activity = true
    · have hlt : actD c < actD d := by
        have h2 := hgt
        rw [hnd, hnc] at h2
        simp [jsGtAct] at h2
        simpa [actD, hnc, hnd] using h2
      obtain ⟨i2, hieq, hmax, hstrict⟩ := ih d hdmem
      have hd0 : actD d ≤ actD ((d :: cs).get i2) := hmax ⟨0, by simp⟩
      have hi2lt := i2.isLt
      refine ⟨⟨i2.val + 1, by simp only [List.length_cons] at hi2lt ⊢; omega⟩, ?_, ?_, ?_⟩
      · rw [hstep, if_pos hgt]
        exact hieq
      · intro j
        rcases j with ⟨jv, hjv⟩
        cases jv with
        | zero => exact le_of_lt (lt_of_lt_of_le hlt hd0)
        | succ k =>
          exact hmax ⟨k, by simp only [List.length_cons] at hjv ⊢; omega⟩
      · intro j hj
        rcases j with ⟨jv, hjv⟩
        cases jv with
        | zero => exact lt_of_lt_of_le hlt hd0
        | succ k =>
          exact hstrict ⟨k, by simp only [List.length_cons] at hjv ⊢; omega⟩
            (Nat.lt_of_succ_lt_succ hj)
    · have hle : actD d ≤ actD c := by
        have h2 := hgt
        rw [hnd, hnc] at h2
        simp [jsGtAct, not_lt] at h2
        simpa [actD, hnc, hnd] using h2
      obtain ⟨i2, hieq, hmax, hstrict⟩ := ih c hcmem
      have hc0 : actD c ≤ actD ((c :: cs).get i2) := hmax ⟨0, by simp⟩
      rcases i2 with ⟨iv, hiv⟩
      cases iv with
      | zero =>
        refine ⟨⟨0, by simp⟩, ?_, ?_, ?_⟩
        · rw [hstep, if_neg hgt]
          exact hieq
        · intro j
          rcases j with ⟨jv, hjv⟩
          cases jv with
          | zero => exact le_refl _
          | succ k =>
            cases k with
            | zero => exact hle
            | succ m =>
              exact hmax ⟨m + 1, by simp only [List.length_cons] at hjv ⊢; omega⟩
        · intro j hj
          exact absurd hj (by simp)
      | succ k =>
        refine ⟨⟨k + 2, by simp only [List.length_cons] at hiv ⊢; omega⟩, ?_, ?_, ?_⟩
        · rw [hstep, if_neg hgt]
          exact hieq
        · intro j
          rcases j with ⟨jv, hjv⟩
          cases jv with
          | zero => exact hc0
          | succ m =>
            cases m with
            | zero => exact le_trans hle hc0
            | succ m2 =>
              exact hmax ⟨m2 + 1, by simp only [List.length_cons] at hjv ⊢; omega⟩
        · intro j hj
          rcases j with ⟨jv, hjv⟩
          cases jv with
          | zero =>
            exact hstrict ⟨0, by simp⟩ (Nat.succ_pos k)
          | succ m =>
            cases m with
            | zero => exact lt_of_le_of_lt hle (hstrict ⟨0, by simp⟩ (Nat.succ_pos k))
            | succ m2 =>
              exact hstrict ⟨m2 + 1, by simp only [List.length_cons] at hjv ⊢; omega⟩
                (Nat.lt_of_succ_lt_succ hj)

/-- Claim C6: for every non-empty client list reported for the current
session (all timestamps parsing), `getActiveClientInfo` selects the client
with the maximum last-activity timestamp, and on exact timestamp ties the
first occurrence in the multiplexer's reported list order wins. -/
theorem active_client_first_max (w : World) (cs out : String)
    (c : Client) (rest : List Client)
    (hpane : jsTruthy w.env.TMUX_PANE = true)
    (hq1 : w.run "tmux" sessionQueryArgs = .ok cs)
    (hcs : cs ≠ "")
    (hq2 : w.run "tmux" (listClientsArgs cs) = .ok out)
    (hparse : ((jsSplitChar '\n' (jsTrim out)).filter (· ≠ "")).map parseClientLine
      = c :: rest)
    (hsome : ∀ x ∈ c :: rest, x.activity.isSome = true) :
    ∃ i : Fin (c :: rest).length,
      getActiveClientInfo w = some (clientToInfo ((c :: rest).get i)) ∧
      (∀ j : Fin (c :: rest).length,
        actD ((c :: rest).get j) ≤ actD ((c :: rest).get i)) ∧
      (∀ j : Fin (c :: rest).length, (j : Nat) < (i : Nat) →
        actD ((c :: rest).get j) < actD ((c :: rest).get i)) := by
  have hparse2 : List.map parseClientLine
      (List.filter (fun x => !decide (x = "")) (jsSplitChar '\n' (jsTrim out))) = c :: rest := by
    simpa using hparse
  have hga : getActiveClientInfo w = some (clientToInfo (reduceActive c rest)) := by
    unfold getActiveClientInfo getActiveClientInfoE
    rw [hpane]
    simp only [if_true]
    rw [hq1]
    simp only [if_neg hcs]
    rw [hq2]
    simp [hparse2, selectActive]
  obtain ⟨i, hieq, hmax, hstrict⟩ := reduceActive_first_max c rest hsome
  exact ⟨i, by rw [hga, hieq], hmax, hstrict⟩

/-- Witness for C6 at `tieWorld`: three clients with activities 100, 250, 250
— the selected client is the one at index 1, the first of the two tied at the
maximum. -/
theorem active_client_first_max_witness :
    ∃ i : Fin tieClients.length,
      getActiveClientInfo tieWorld = some (clientToInfo (tieClients.get i)) ∧
      (∀ j : Fin tieClients.length, actD (tieClients.get j) ≤ actD (tieClients.get i)) ∧
      (∀ j : Fin tieClients.length, (j : Nat) < (i : Nat) →
        actD (tieClients.get j) < actD (tieClients.get i)) :=
  active_client_first_max tieWorld "main"
    "/dev/ttys000|main|100\n/dev/ttys001|main|250\n/dev/ttys002|main|250"
    ⟨"/dev/ttys000", "main", some 100⟩
    [⟨"/dev/ttys001", "main", some 250⟩, ⟨"/dev/ttys002", "main", some 250⟩]
    (by decide) (by decide) (by decide) (by decide) (by decide) (by decide)

/-- `getCurrentTmuxInfo` performs only multiplexer queries. -/
theorem getCurrentTmuxInfoFx_effects (w : World) (e : Effect)
    (he : e ∈ (getCurrentTmuxInfoFx w).1) : ∃ qa, e = Effect.tmuxQuery qa := by
  unfold getCurrentTmuxInfoFx at he
  rcases h1 : w.run "tmux" sessionQueryArgs with e1 | s <;> rw [h1] at he
  · simp at he
    exact ⟨_, he⟩
  · rcases h2 : w.run "tmux" windowQueryArgs with e2 | wi <;> rw [h2] at he
    · simp at he
      rcases he with he | he <;> exact ⟨_, he⟩
    · rcases h3 : w.run "tmux" paneQueryArgs with e3 | p <;> rw [h3] at he <;>
        simp at he <;> rcases he with he | he | he <;> exact ⟨_, he⟩

/-- Unfolding equation for the CLI parse loop on an argument that matches no
flag: it is skipped. -/
theorem cliParse_cons_other (w : World) (a : String) (rest : List String) (o : CliOptions)
    (h1 : ¬(a = "-m" ∨ a = "--message")) (h2 : ¬(a = "-t" ∨ a = "--title"))
    (h3 : ¬(a = "-s" ∨ a = "--session")) (h4 : ¬(a = "-w" ∨ a = "--window"))
    (h5 : ¬(a = "-p" ∨ a = "--pane")) (h6 : ¬(a = "--sound"))
    (h7 : ¬(a = "--current-tmux")) :
    cliParse w (a :: rest) o = cliParse w rest o := by
  unfold cliParse
  rw [if_neg h1, if_neg h2, if_neg h3, if_neg h4, if_neg h5, if_neg h6, if_neg h7,
    cliParse.eq_def]

/-- The CLI parse loop performs only multiplexer queries — in particular it
never invokes the Terminal Resolver or launches the primitive. -/
theorem cliParse_effects_tmux_only (w : World) (args : List String) (o : CliOptions) :
    ∀ e ∈ (cliParse w args o).1, ∃ qa, e = Effect.tmuxQuery qa := by
  induction args, o using cliParse.induct w with
  | case14 rest o fx current hfx fxRest oFinal hrec hn1 hn2 hn3 hn4 hn5 hn6 ih =>
    intro e he
    have heq : cliParse w ("--current-tmux" :: rest) o =
        (fx ++ (cliParse w rest (useCurrentCoords o current)).1,
         (cliParse w rest (useCurrentCoords o current)).2) := by
      conv_lhs => unfold cliParse
      simp [hfx]
    rw [heq] at he
    simp only [List.mem_append] at he
    rcases he with he | he
    · exact getCurrentTmuxInfoFx_effects w e (by rw [hfx]; exact he)
    · exact ih e he
  | case15 a rest o h1 h2 h3 h4 h5 h6 h7 ih =>
    intro e he
    rw [cliParse_cons_other w a rest o h1 h2 h3 h4 h5 h6 h7] at he
    exact ih e he
  | _ => simp_all [cliParse]

/-- Without a `--current-tmux` flag the CLI parse loop performs no external
work at all. -/
theorem cliParse_no_current_no_effects (w : World) (args : List String) (o : CliOptions) :
    "--current-tmux" ∉ args → (cliParse w args o).1 = [] := by
  induction args, o using cliParse.induct w with
  | case14 rest o fx current hfx fxRest oFinal hrec hn1 hn2 hn3 hn4 hn5 hn6 ih =>
    intro hni
    exact absurd (List.mem_cons_self _ _) hni
  | case15 a rest o h1 h2 h3 h4 h5 h6 h7 ih =>
    intro hni
    rw [cliParse_cons_other w a rest o h1 h2 h3 h4 h5 h6 h7]
    exact ih (fun hm => hni (List.mem_cons_of_mem _ hm))
  | _ => intro hni; simp_all [cliParse]

/-- With no help/list flag and a missing message, the CLI exits with the
missing-message error right after parsing, with exactly the parse loop's
effects performed. -/
theorem cliMain_missing_message (w : World) (args : List String)
    (h1 : args.contains "--help" = false) (h2 : args.contains "-h" = false)
    (h3 : args.contains "--list-sessions" = false)
    (hmsg : (cliParse w args CliOptions.init).2.message = "") :
    cliMain w args = ((cliParse w args CliOptions.init).1, .missingMessage) := by
  unfold cliMain
  rw [if_neg (by rw [h1, h2]; simp), if_neg (by rw [h3]; simp)]
  rcases hp : cliParse w args CliOptions.init with ⟨fx, opts⟩
  have hmsg2 : opts.message = "" := by rw [hp] at hmsg; exact hmsg
  simp [hmsg2]

/-- Claim C9 (counterexample): the CLI invoked as `--current-tmux` with no
message issues a multiplexer query (the current-session `display-message`)
during argument parsing, before the missing-message validation rejects the
call. -/
theorem cli_current_tmux_query_before_validation :
    cliMain failWorld ["--current-tmux"] =
      ([Effect.tmuxQuery sessionQueryArgs], .missingMessage) ∧
    (cliMain failWorld ["--current-tmux"]).1 ≠ [] := by
  decide

/-- Claim C9 (amended): the missing-message validation rejects before the
Terminal Resolver (and the primitive launch) in both front ends, and before
any multiplexer query in the protocol-tool handler; in the CLI, absent a
`--current-tmux` flag no multiplexer query precedes the rejection either,
but with that flag the current-coordinates query runs during parsing, before
the validation. -/
theorem missing_message_rejected_early :
    (∀ (w : World) (a : McpArgs), jsTruthy a.message = false →
      mcpSendNotification w a = ([], .missingMessage)) ∧
    (∀ (w : World) (args : List String),
      args.contains "--help" = false → args.contains "-h" = false →
      args.contains "--list-sessions" = false →
      (cliParse w args CliOptions.init).2.message = "" →
      cliMain w args = ((cliParse w args CliOptions.init).1, .missingMessage) ∧
      Effect.resolver ∉ (cliMain w args).1 ∧ Effect.openLaunch ∉ (cliMain w args).1) ∧
    (∀ (w : World) (args : List String),
      args.contains "--help" = false → args.contains "-h" = false →
      args.contains "--list-sessions" = false → "--current-tmux" ∉ args →
      (cliParse w args CliOptions.init).2.message = "" →
      cliMain w args = ([], .missingMessage)) := by
  refine ⟨?_, ?_, ?_⟩
  · intro w a h
    simp [mcpSendNotification, h]
  · intro w args h1 h2 h3 hmsg
    have e1 := cliMain_missing_message w args h1 h2 h3 hmsg
    refine ⟨e1, ?_, ?_⟩
    · rw [e1]
      intro hmem
      obtain ⟨qa, hqa⟩ := cliParse_effects_tmux_only w args CliOptions.init _ hmem
      cases hqa
    · rw [e1]
      intro hmem
      obtain ⟨qa, hqa⟩ := cliParse_effects_tmux_only w args CliOptions.init _ hmem
      cases hqa
  · intro w args h1 h2 h3 hni hmsg
    rw [cliMain_missing_message w args h1 h2 h3 hmsg,
      cliParse_no_current_no_effects w args CliOptions.init hni]

/-- Witness for the amended C9: a message-less protocol-tool call performs no
work before rejection, and a message-less CLI call (`-t T`, no
`--current-tmux`) likewise rejects with no effects and no resolver
invocation. -/
theorem missing_message_rejected_early_witness :
    mcpSendNotification failWorld ⟨none, some "T", none, none, none, none, false⟩ =
      ([], .missingMessage) ∧
    (cliMain failWorld ["-t", "T"] =
        ((cliParse failWorld ["-t", "T"] CliOptions.init).1, .missingMessage) ∧
      Effect.resolver ∉ (cliMain failWorld ["-t", "T"]).1 ∧
      Effect.openLaunch ∉ (cliMain failWorld ["-t", "T"]).1) ∧
    cliMain failWorld ["-t", "T"] = ([], .missingMessage) :=
  ⟨missing_message_rejected_early.1 failWorld _ (by decide),
   missing_message_rejected_early.2.1 failWorld ["-t", "T"]
     (by decide) (by decide) (by decide) (by decide),
   missing_message_rejected_early.2.2 failWorld ["-t", "T"]
     (by decide) (by decide) (by decide) (by decide) (by decide)⟩

end MacosNotifyMcp
